import Mathlib

/-!
Verification of the Homa user-level API wrappers (homa_api.c).

The file embeds the eight library functions of `src/homa_api.c` as pure Lean
functions. The underlying kernel primitives (`sendmsg`, `ioctl` with the
`HOMAIOCABORT` request, and `getsockopt` with the `SO_HOMA_PEELOFF` option)
are external collaborators; they are modelled as an abstract record of
functions (`Prims`) over which the theorems quantify. Because the kernel may
write into the control block passed through `msg_control` (this is how the
engine-assigned RPC id is returned to `homa_send`), the `sendmsg` primitive
returns both its integer result and the final contents of the control block.

Machine integers: `uint64_t` fields are modelled as `Nat` (the wrappers never
perform arithmetic on them, so no overflow can arise in this layer), and the
`int`/`ssize_t` results as `Int`. A caller-supplied `uint64_t *id` out-pointer
is modelled as `Option Nat`: `none` is a NULL pointer, `some v` a cell that
currently holds `v`; each send operation returns the final contents of that
cell alongside the sendmsg result.
-/

namespace HomaApi

/-- Transport addresses (the bytes behind a `struct sockaddr *`) are opaque to
this layer; they are modelled as an abstract value. -/
abbrev Addr := Nat

/-- One chunk of a scatter/gather message: `struct iovec`. `iov_base` is an
opaque pointer value. -/
structure iovec where
  iov_base : Nat
  iov_len : Nat
deriving DecidableEq, Repr

/-- Control block attached to every Homa send: `struct homa_sendmsg_args`
(declared in homa.h), with fields `id` and `completion_cookie`, both
`uint64_t`. -/
structure homa_sendmsg_args where
  id : Nat
  completion_cookie : Nat
deriving DecidableEq, Repr

/-- Fixed-size record passed to the abort control operation:
`struct homa_abort_args` (declared in homa.h), initialised positionally as
`{id, error}` in `homa_abort`. -/
structure homa_abort_args where
  id : Nat
  error : Int
deriving DecidableEq, Repr

/-- Message header handed to `sendmsg`: the fields of `struct msghdr` that the
wrappers set. `msg_name = none` models a NULL pointer. `msg_iov` holds the
contents of the iovec array, `msg_iovlen` the count the caller claimed. -/
structure msghdr where
  msg_name : Option Addr
  msg_namelen : Nat
  msg_iov : List iovec
  msg_iovlen : Nat
  msg_control : homa_sendmsg_args
  msg_controllen : Nat
deriving DecidableEq, Repr

/-- The external kernel primitives this layer is built on.
`sendmsg sockfd hdr flags` returns the syscall result together with the state
of the control block reachable through `hdr.msg_control` after the call (the
kernel writes the engine-assigned id there). `ioctl_abort sockfd args` is
`ioctl(sockfd, HOMAIOCABORT, &args)`: `HOMAIOCABORT` is the single ioctl
request code the library uses, so the request-code argument is subsumed in
the primitive. `getsockopt_peeloff sockfd addr addrlen` is
`getsockopt(sockfd, IPPROTO_HOMA, SO_HOMA_PEELOFF, addr, &addrlen)`. -/
structure Prims where
  sendmsg : Int → msghdr → Int → Int × homa_sendmsg_args
  ioctl_abort : Int → homa_abort_args → Int
  getsockopt_peeloff : Int → Addr → Nat → Int

/-- Embedding of `homa_reply` (homa_api.c:38): send a response for a
previously received RPC. Sets `args.id = id`, `args.completion_cookie = 0`,
wraps the single buffer in a one-element iovec, passes the destination
address, and returns the `sendmsg` result. -/
def homa_reply (P : Prims) (sockfd : Int) (message_buf : Nat) (length : Nat)
    (dest_addr : Option Addr) (addrlen : Nat) (id : Nat) : Int :=
  let args : homa_sendmsg_args := { id := id, completion_cookie := 0 }
  let vec : iovec := { iov_base := message_buf, iov_len := length }
  let hdr : msghdr :=
    { msg_name := dest_addr, msg_namelen := addrlen,
      msg_iov := [vec], msg_iovlen := 1,
      msg_control := args, msg_controllen := 0 }
  (P.sendmsg sockfd hdr 0).1

/-- Embedding of `homa_replyv` (homa_api.c:83): like `homa_reply` but the
message is the caller's iovec array `iov` with claimed count `iovcnt`. -/
def homa_replyv (P : Prims) (sockfd : Int) (iov : List iovec) (iovcnt : Nat)
    (dest_addr : Option Addr) (addrlen : Nat) (id : Nat) : Int :=
  let args : homa_sendmsg_args := { id := id, completion_cookie := 0 }
  let hdr : msghdr :=
    { msg_name := dest_addr, msg_namelen := addrlen,
      msg_iov := iov, msg_iovlen := iovcnt,
      msg_control := args, msg_controllen := 0 }
  (P.sendmsg sockfd hdr 0).1

/-- Embedding of `homa_send` (homa_api.c:120): send a request. Sets
`args.id = 0`, `args.completion_cookie = completion_cookie`, calls `sendmsg`,
and when the result is non-negative and the id out-pointer is non-NULL writes
the id the kernel left in the control block through the pointer. Returns the
`sendmsg` result together with the final contents of the id cell. -/
def homa_send (P : Prims) (sockfd : Int) (message_buf : Nat) (length : Nat)
    (dest_addr : Option Addr) (addrlen : Nat) (id : Option Nat)
    (completion_cookie : Nat) : Int × Option Nat :=
  let args : homa_sendmsg_args := { id := 0, completion_cookie := completion_cookie }
  let vec : iovec := { iov_base := message_buf, iov_len := length }
  let hdr : msghdr :=
    { msg_name := dest_addr, msg_namelen := addrlen,
      msg_iov := [vec], msg_iovlen := 1,
      msg_control := args, msg_controllen := 0 }
  let r := P.sendmsg sockfd hdr 0
  (r.1, match id with
        | none => none
        | some v => if 0 ≤ r.1 then some r.2.id else some v)

/-- Embedding of `homa_sendv` (homa_api.c:165): like `homa_send` but the
message is the caller's iovec array `iov` with claimed count `iovcnt`. -/
def homa_sendv (P : Prims) (sockfd : Int) (iov : List iovec) (iovcnt : Nat)
    (dest_addr : Option Addr) (addrlen : Nat) (id : Option Nat)
    (completion_cookie : Nat) : Int × Option Nat :=
  let args : homa_sendmsg_args := { id := 0, completion_cookie := completion_cookie }
  let hdr : msghdr :=
    { msg_name := dest_addr, msg_namelen := addrlen,
      msg_iov := iov, msg_iovlen := iovcnt,
      msg_control := args, msg_controllen := 0 }
  let r := P.sendmsg sockfd hdr 0
  (r.1, match id with
        | none => none
        | some v => if 0 ≤ r.1 then some r.2.id else some v)

/-- Embedding of `homa_abort` (homa_api.c:203): builds
`struct homa_abort_args args = {id, error}` and returns
`ioctl(sockfd, HOMAIOCABORT, &args)` verbatim. -/
def homa_abort (P : Prims) (sockfd : Int) (id : Nat) (error : Int) : Int :=
  P.ioctl_abort sockfd { id := id, error := error }

/-- Embedding of `homa_reply_connected` (homa_api.c:225): like `homa_reply`
but `msg_name = NULL` and `msg_namelen = 0` (for peeled-off sockets). -/
def homa_reply_connected (P : Prims) (sockfd : Int) (message_buf : Nat)
    (length : Nat) (id : Nat) : Int :=
  let args : homa_sendmsg_args := { id := id, completion_cookie := 0 }
  let vec : iovec := { iov_base := message_buf, iov_len := length }
  let hdr : msghdr :=
    { msg_name := none, msg_namelen := 0,
      msg_iov := [vec], msg_iovlen := 1,
      msg_control := args, msg_controllen := 0 }
  (P.sendmsg sockfd hdr 0).1

/-- Embedding of `homa_send_connected` (homa_api.c:256): connected-mode
request send. Sets `args.id = 0`, `args.completion_cookie = 0`,
`msg_name = NULL`, `msg_namelen = 0`; the `flags` parameter is never used
(the `sendmsg` flags argument is the literal 0); the sendmsg result is
returned and the control block is discarded (no id write-back). -/
def homa_send_connected (P : Prims) (sockfd : Int) (message_buf : Nat)
    (length : Nat) (flags : Int) : Int :=
  let args : homa_sendmsg_args := { id := 0, completion_cookie := 0 }
  let vec : iovec := { iov_base := message_buf, iov_len := length }
  let hdr : msghdr :=
    { msg_name := none, msg_namelen := 0,
      msg_iov := [vec], msg_iovlen := 1,
      msg_control := args, msg_controllen := 0 }
  (P.sendmsg sockfd hdr 0).1

/-- Embedding of `homa_peeloff` (homa_api.c:290): forwards its arguments to
the `SO_HOMA_PEELOFF` socket-option primitive and returns its result. -/
def homa_peeloff (P : Prims) (sockfd : Int) (client_addr : Addr)
    (addrlen : Nat) : Int :=
  P.getsockopt_peeloff sockfd client_addr addrlen

/-- The `SendControl` record of the spec's Control-Message Codec:
`{id: RpcId, cookie: CompletionCookie}`. -/
structure SendControl where
  id : Nat
  cookie : Nat
deriving DecidableEq, Repr

/-- Encoding of a `SendControl` value as the auxiliary record the send
primitive expects: the `homa_sendmsg_args` block with `id` and
`completion_cookie` set from the record (homa_api.c:129-130). -/
def encodeSendControl (x : SendControl) : homa_sendmsg_args :=
  { id := x.id, completion_cookie := x.cookie }

/-- Decoding of an auxiliary record back into a `SendControl`: read the `id`
and `completion_cookie` fields (this is how homa_api.c:143 reads the
engine-assigned id back out of the block). -/
def decodeSendControl (a : homa_sendmsg_args) : SendControl :=
  { id := a.id, cookie := a.completion_cookie }

/-- Concrete probe primitives used for counterexamples: `sendmsg` answers
with the completion cookie it was handed in the control block, so two calls
that pass different cookies are observably different. -/
def probePrims : Prims where
  sendmsg := fun _ hdr _ => ((hdr.msg_control.completion_cookie : Int), hdr.msg_control)
  ioctl_abort := fun _ _ => 0
  getsockopt_peeloff := fun _ _ _ => 0

/-- Modelled from the spec: the engine side of the `SO_HOMA_PEELOFF`
socket option is not part of src/ (only its caller `homa_peeloff` is), so the
Peel-off Demultiplexer's engine state is modelled from the spec's words:
`live_assocs` are the peer address/length pairs with a live association, and
`sockets` the socket handles that currently exist (the parent among them). -/
structure PeelState where
  live_assocs : List (Addr × Nat)
  sockets : List Int
deriving DecidableEq, Repr

/-- Handle chosen for a newly created socket: strictly larger than every
existing handle, hence fresh and non-negative. -/
def fresh_socket (l : List Int) : Int :=
  l.foldr max 0 + 1

/-- Modelled from the spec: the socket-option primitive used only by
peel-off, which lives in the transport engine, not in src/. Per the spec it
accepts a peer address and address length and returns a new socket handle
when they correspond to a live association; otherwise the operation fails
with an addressing error (a negative result) and no socket is created. -/
def peeloff_engine (st : PeelState) (sockfd : Int) (client_addr : Addr)
    (addrlen : Nat) : Int × PeelState :=
  if (client_addr, addrlen) ∈ st.live_assocs then
    let fd := fresh_socket st.sockets
    (fd, { st with sockets := fd :: st.sockets })
  else
    (-1, st)

/-- Primitives whose peel-off behaviour is the spec-modelled engine started
in state `st`; ignoring `sockfd` the other primitives are inert. -/
def peelPrims (st : PeelState) : Prims where
  sendmsg := fun _ hdr _ => (0, hdr.msg_control)
  ioctl_abort := fun _ _ => 0
  getsockopt_peeloff := fun s a n => (peeloff_engine st s a n).1

lemma foldr_max_nonneg (l : List Int) : 0 ≤ l.foldr max 0 := by
  induction l with
  | nil => simp
  | cons x xs ih => exact le_trans ih (le_max_right _ _)

lemma le_foldr_max (l : List Int) (x : Int) (hx : x ∈ l) :
    x ≤ l.foldr max 0 := by
  induction l with
  | nil => cases hx
  | cons y ys ih =>
    rcases List.mem_cons.mp hx with h | h
    · rw [h]; exact le_max_left _ _
    · exact le_trans (ih h) (le_max_right _ _)

/-- Claim C1: for every call to `homa_send` (and `homa_sendv`), the `id` field
of the control block passed to `sendmsg` is 0 regardless of the value `v` the
caller's id cell holds; when `sendmsg` returns a non-negative result the
engine-assigned id is read back out of the control block and stored through
the caller's id pointer; when it returns a negative result the caller's id
cell is left unchanged and the error result is returned verbatim from the
single `sendmsg` call, with no retry. -/
theorem homa_send_request_id_contract (P : Prims) (s : Int) (b l : Nat)
    (d : Option Addr) (al : Nat) (v c : Nat) (iov : List iovec) (cnt : Nat) :
    (homa_send P s b l d al (some v) c =
      (let r := P.sendmsg s
          { msg_name := d, msg_namelen := al,
            msg_iov := [{ iov_base := b, iov_len := l }], msg_iovlen := 1,
            msg_control := { id := 0, completion_cookie := c },
            msg_controllen := 0 } 0
       (r.1, if 0 ≤ r.1 then some r.2.id else some v))) ∧
    (homa_sendv P s iov cnt d al (some v) c =
      (let r := P.sendmsg s
          { msg_name := d, msg_namelen := al,
            msg_iov := iov, msg_iovlen := cnt,
            msg_control := { id := 0, completion_cookie := c },
            msg_controllen := 0 } 0
       (r.1, if 0 ≤ r.1 then some r.2.id else some v))) :=
  ⟨rfl, rfl⟩

/-- Claim C2, counterexample: `homa_send_connected` does not preserve the
completion-cookie input of its counterpart `homa_send`. Against primitives
whose `sendmsg` answers with the cookie found in the control block,
`homa_send` with cookie 1 and no address returns 1 while `homa_send_connected`
returns 0, because the connected variant hardwires the cookie to 0. -/
theorem send_connected_cookie_counterexample :
    (homa_send probePrims 0 0 0 none 0 none 1).1 = 1 ∧
    homa_send_connected probePrims 0 0 0 0 = 0 ∧
    homa_send_connected probePrims 0 0 0 0 ≠ (homa_send probePrims 0 0 0 none 0 none 1).1 := by
  decide

/-- Claim C2, amended: `homa_reply_connected` behaves identically to
`homa_reply` given no address (`msg_name = NULL`, `msg_namelen = 0`);
`homa_send_connected` behaves identically to `homa_send` given no address,
a NULL id out-pointer and completion cookie 0 — the connected request variant
hardwires the cookie to 0 and discards the engine-assigned id, and its extra
`flags` argument is ignored. -/
theorem connected_variants_amended (P : Prims) (s : Int) (b l : Nat) (i : Nat)
    (f : Int) :
    homa_reply_connected P s b l i = homa_reply P s b l none 0 i ∧
    homa_send_connected P s b l f = (homa_send P s b l none 0 none 0).1 :=
  ⟨rfl, rfl⟩

/-- Claim C3: against the spec-modelled peel-off engine, `homa_peeloff`
returns a non-negative socket handle distinct from the parent when the
address/length pair is a live association (and the new handle is exactly what
was added to the engine's socket set), and fails with a negative addressing
error leaving the engine state unchanged — no partial socket — otherwise. -/
theorem homa_peeloff_contract (st : PeelState) (sockfd : Int) (a : Addr)
    (n : Nat) (hs : sockfd ∈ st.sockets) :
    ((a, n) ∈ st.live_assocs →
      0 ≤ homa_peeloff (peelPrims st) sockfd a n ∧
      homa_peeloff (peelPrims st) sockfd a n ≠ sockfd ∧
      (peeloff_engine st sockfd a n).2.sockets =
        homa_peeloff (peelPrims st) sockfd a n :: st.sockets) ∧
    ((a, n) ∉ st.live_assocs →
      homa_peeloff (peelPrims st) sockfd a n < 0 ∧
      (peeloff_engine st sockfd a n).2 = st) := by
  constructor
  · intro hmem
    have hres : homa_peeloff (peelPrims st) sockfd a n = fresh_socket st.sockets := by
      simp [homa_peeloff, peelPrims, peeloff_engine, hmem]
    refine ⟨?_, ?_, ?_⟩
    · rw [hres]
      unfold fresh_socket
      have h0 := foldr_max_nonneg st.sockets
      omega
    · rw [hres]
      unfold fresh_socket
      have hle := le_foldr_max st.sockets sockfd hs
      omega
    · rw [hres]
      simp [peeloff_engine, hmem]
  · intro hmem
    refine ⟨?_, ?_⟩
    · simp [homa_peeloff, peelPrims, peeloff_engine, hmem]
    · simp [peeloff_engine, hmem]

/-- Witness for C3: a concrete engine state with one live association
`(5, 4)` and one existing socket 3; peeling off address 5 with length 4 from
parent socket 3 yields a fresh non-negative handle. -/
theorem homa_peeloff_contract_witness :
    (3 : Int) ∈ PeelState.sockets { live_assocs := [(5, 4)], sockets := [3] } ∧
    (0 ≤ homa_peeloff (peelPrims { live_assocs := [(5, 4)], sockets := [3] }) 3 5 4 ∧
     homa_peeloff (peelPrims { live_assocs := [(5, 4)], sockets := [3] }) 3 5 4 ≠ 3 ∧
     (peeloff_engine { live_assocs := [(5, 4)], sockets := [3] } 3 5 4).2.sockets =
       homa_peeloff (peelPrims { live_assocs := [(5, 4)], sockets := [3] }) 3 5 4 :: [3]) :=
  ⟨by decide,
   (homa_peeloff_contract { live_assocs := [(5, 4)], sockets := [3] } 3 5 4
     (by decide)).1 (by decide)⟩

/-- Claim C4: every reply-side send — `homa_reply`, `homa_replyv` and
`homa_reply_connected` — hands `sendmsg` a control block whose
`completion_cookie` field is 0, regardless of the caller's arguments. -/
theorem reply_cookie_forced_zero (P : Prims) (s : Int) (b l : Nat)
    (d : Option Addr) (al : Nat) (i : Nat) (iov : List iovec) (cnt : Nat) :
    (homa_reply P s b l d al i =
      (P.sendmsg s
        { msg_name := d, msg_namelen := al,
          msg_iov := [{ iov_base := b, iov_len := l }], msg_iovlen := 1,
          msg_control := { id := i, completion_cookie := 0 },
          msg_controllen := 0 } 0).1) ∧
    (homa_replyv P s iov cnt d al i =
      (P.sendmsg s
        { msg_name := d, msg_namelen := al,
          msg_iov := iov, msg_iovlen := cnt,
          msg_control := { id := i, completion_cookie := 0 },
          msg_controllen := 0 } 0).1) ∧
    (homa_reply_connected P s b l i =
      (P.sendmsg s
        { msg_name := none, msg_namelen := 0,
          msg_iov := [{ iov_base := b, iov_len := l }], msg_iovlen := 1,
          msg_control := { id := i, completion_cookie := 0 },
          msg_controllen := 0 } 0).1) :=
  ⟨rfl, rfl, rfl⟩

/-- Claim C5: `homa_send` on buffer `b` of length `l` is exactly `homa_sendv`
on the one-element iovec array `[{b, l}]` with count 1 — same control block,
destination, flags, result and id write-back; likewise `homa_reply` is
exactly `homa_replyv` on that one-element array. -/
theorem single_buffer_eq_vector (P : Prims) (s : Int) (b l : Nat)
    (d : Option Addr) (al : Nat) (idp : Option Nat) (c i : Nat) :
    homa_send P s b l d al idp c =
      homa_sendv P s [{ iov_base := b, iov_len := l }] 1 d al idp c ∧
    homa_reply P s b l d al i =
      homa_replyv P s [{ iov_base := b, iov_len := l }] 1 d al i :=
  ⟨rfl, rfl⟩

/-- Claim C6: `homa_abort` passes exactly the record `{id, error}` unmodified
to the ioctl control-transfer primitive and returns its result verbatim; it
depends only on that primitive (two primitive families agreeing on
`ioctl_abort` give it equal results), while every other operation of the
library is unaffected by the ioctl primitive — each depends only on `sendmsg`
(or, for `homa_peeloff`, on the socket-option primitive). -/
theorem homa_abort_control_transfer (P Q : Prims) (s : Int) (i : Nat)
    (e : Int) :
    (homa_abort P s i e = P.ioctl_abort s { id := i, error := e }) ∧
    (P.ioctl_abort = Q.ioctl_abort → homa_abort P s i e = homa_abort Q s i e) ∧
    (P.sendmsg = Q.sendmsg →
      ∀ (b l : Nat) (d : Option Addr) (al : Nat) (idp : Option Nat)
        (c rid : Nat) (iov : List iovec) (cnt : Nat) (f : Int),
        homa_send P s b l d al idp c = homa_send Q s b l d al idp c ∧
        homa_sendv P s iov cnt d al idp c = homa_sendv Q s iov cnt d al idp c ∧
        homa_reply P s b l d al rid = homa_reply Q s b l d al rid ∧
        homa_replyv P s iov cnt d al rid = homa_replyv Q s iov cnt d al rid ∧
        homa_reply_connected P s b l rid = homa_reply_connected Q s b l rid ∧
        homa_send_connected P s b l f = homa_send_connected Q s b l f) ∧
    (P.getsockopt_peeloff = Q.getsockopt_peeloff →
      ∀ (a : Addr) (n : Nat), homa_peeloff P s a n = homa_peeloff Q s a n) := by
  refine ⟨rfl, fun h => ?_, fun h => ?_, fun h => ?_⟩
  · simp only [homa_abort, h]
  · intro b l d al idp c rid iov cnt f
    refine ⟨?_, ?_, ?_, ?_, ?_, ?_⟩ <;>
      simp only [homa_send, homa_sendv, homa_reply, homa_replyv,
        homa_reply_connected, homa_send_connected, h]
  · intro a n
    simp only [homa_peeloff, h]

/-- Witness for C6: the contract instantiated at the concrete probe
primitives, all hypotheses discharged by reflexivity. -/
theorem homa_abort_control_transfer_witness :
    (homa_abort probePrims 0 7 2 = probePrims.ioctl_abort 0 { id := 7, error := 2 }) ∧
    (homa_abort probePrims 0 7 2 = homa_abort probePrims 0 7 2) ∧
    (homa_peeloff probePrims 0 1 2 = homa_peeloff probePrims 0 1 2) ∧
    (homa_send probePrims 0 0 0 none 0 none 0 = homa_send probePrims 0 0 0 none 0 none 0) :=
  ⟨(homa_abort_control_transfer probePrims probePrims 0 7 2).1,
   (homa_abort_control_transfer probePrims probePrims 0 7 2).2.1 rfl,
   (homa_abort_control_transfer probePrims probePrims 0 7 2).2.2.2 rfl 1 2,
   ((homa_abort_control_transfer probePrims probePrims 0 7 2).2.2.1 rfl
     0 0 none 0 none 0 0 [] 0 0).1⟩

/-- Claim C7: the control-block codec is a pure round-trip —
`decodeSendControl (encodeSendControl x) = x` for every `SendControl` value
`x`, including `id = 0`; and this encoding is exactly what `homa_send`
attaches to a send operation and reads the engine-assigned id back from. -/
theorem sendcontrol_codec_roundtrip (x : SendControl) (P : Prims) (s : Int)
    (b l : Nat) (d : Option Addr) (al : Nat) (v c : Nat) :
    decodeSendControl (encodeSendControl x) = x ∧
    homa_send P s b l d al (some v) c =
      (let r := P.sendmsg s
          { msg_name := d, msg_namelen := al,
            msg_iov := [{ iov_base := b, iov_len := l }], msg_iovlen := 1,
            msg_control := encodeSendControl { id := 0, cookie := c },
            msg_controllen := 0 } 0
       (r.1, if 0 ≤ r.1 then some (decodeSendControl r.2).id else some v)) :=
  ⟨rfl, rfl⟩

/-- Claim C8: `homa_reply` performs no validation of its id argument — for
every `i`, including 0, it forwards the control block `{i, 0}` to `sendmsg`;
and a zero-id reply issues exactly the sendmsg call of
`homa_send` with cookie 0 (whatever the id out-pointer), so the two are
indistinguishable at this layer. -/
theorem reply_forwards_any_id (P : Prims) (s : Int) (b l : Nat)
    (d : Option Addr) (al : Nat) (i : Nat) (idp : Option Nat) :
    (homa_reply P s b l d al i =
      (P.sendmsg s
        { msg_name := d, msg_namelen := al,
          msg_iov := [{ iov_base := b, iov_len := l }], msg_iovlen := 1,
          msg_control := { id := i, completion_cookie := 0 },
          msg_controllen := 0 } 0).1) ∧
    homa_reply P s b l d al 0 = (homa_send P s b l d al idp 0).1 :=
  ⟨rfl, rfl⟩

/-- Claim C9: the `flags` parameter of `homa_send_connected` has no effect:
any two flags values yield the identical call (the `sendmsg` flags argument
is hardwired to 0) and the identical result. -/
theorem send_connected_flags_ignored (P : Prims) (s : Int) (b l : Nat)
    (f1 f2 : Int) :
    homa_send_connected P s b l f1 = homa_send_connected P s b l f2 ∧
    homa_send_connected P s b l f1 =
      (P.sendmsg s
        { msg_name := none, msg_namelen := 0,
          msg_iov := [{ iov_base := b, iov_len := l }], msg_iovlen := 1,
          msg_control := { id := 0, completion_cookie := 0 },
          msg_controllen := 0 } 0).1 :=
  ⟨rfl, rfl⟩

/-- Claim C10: with a NULL id out-pointer, `homa_send` and `homa_sendv` never
write an id back — the cell stays absent for success and failure alike — and
still return the `sendmsg` result verbatim. -/
theorem send_null_id_pointer (P : Prims) (s : Int) (b l : Nat)
    (d : Option Addr) (al : Nat) (c : Nat) (iov : List iovec) (cnt : Nat) :
    homa_send P s b l d al none c =
      ((P.sendmsg s
        { msg_name := d, msg_namelen := al,
          msg_iov := [{ iov_base := b, iov_len := l }], msg_iovlen := 1,
          msg_control := { id := 0, completion_cookie := c },
          msg_controllen := 0 } 0).1, none) ∧
    homa_sendv P s iov cnt d al none c =
      ((P.sendmsg s
        { msg_name := d, msg_namelen := al,
          msg_iov := iov, msg_iovlen := cnt,
          msg_control := { id := 0, completion_cookie := c },
          msg_controllen := 0 } 0).1, none) :=
  ⟨rfl, rfl⟩

end HomaApi
